import Mathlib

/-!
Shallow embedding of the Python-Pokedex repository (src/pokedex.py,
src/pokeretreiver/query.py, src/pokeretreiver/pokedex_objects.py), together
with theorems settling the behavioural claims about its request pipeline and
asynchronous fetch engine.

Modelling conventions:
  * loosely typed Python values (decoded JSON payloads) are the inductive
    type PyVal; Python None is modelled by Option.none where a function can
    return None, and by the PyVal.pynone constructor inside payloads;
  * a raised Python exception is Except.error with a message naming the
    exception class; a normal return is Except.ok;
  * the network is an oracle Net mapping a (lower-cased) URL to either an
    HTTP status with decoded body or a transport-level failure;
  * asyncio concurrency is made explicit: a fan-out batch takes a completion
    order (the order in which the scheduler finishes the tasks) as a list of
    task indices; asyncio.gather fills one result slot per task index and
    propagates the first exception in completion order.
-/

set_option maxRecDepth 8192

/-- Loosely typed Python values, as found in decoded JSON payloads. -/
inductive PyVal where
  | pynone
  | str (s : String)
  | int (n : Int)
  | bool (b : Bool)
  | list (xs : List PyVal)
  | dict (kvs : List (String × PyVal))

/-- Python dict lookup on a keyword-argument list: first binding of the key. -/
def lookupKw (kvs : List (String × PyVal)) (k : String) : Option PyVal :=
  (kvs.find? (fun p => p.1 == k)).map Prod.snd

/-- Python subscript v[k] for a string key: KeyError when absent, TypeError
when the value is not a dict. -/
def PyVal.getItem : PyVal → String → Except String PyVal
  | PyVal.dict kvs, k =>
    match lookupKw kvs k with
    | some v => Except.ok v
    | Option.none => Except.error ("KeyError: " ++ k)
  | _, k => Except.error ("TypeError: value not subscriptable with key " ++ k)

/-- Python subscript v[i] for an integer index on a list: IndexError when out
of range, TypeError when the value is not a list. -/
def PyVal.index : PyVal → Nat → Except String PyVal
  | PyVal.list xs, i =>
    match xs.get? i with
    | some v => Except.ok v
    | Option.none => Except.error "IndexError: list index out of range"
  | _, _ => Except.error "TypeError: value not indexable"

/-- Python f(**info): info must be a mapping (a dict); None or a non-dict
raises TypeError. -/
def kwargsOf : Option PyVal → Except String (List (String × PyVal))
  | some (PyVal.dict kvs) => Except.ok kvs
  | _ => Except.error "TypeError: argument after ** must be a mapping"

/-- Python len(info): defined for dict, list and str; raises TypeError for
None and other values. -/
def lenOfPy : Option PyVal → Except String Nat
  | some (PyVal.dict kvs) => Except.ok kvs.length
  | some (PyVal.list xs) => Except.ok xs.length
  | some (PyVal.str s) => Except.ok s.length
  | _ => Except.error "TypeError: object has no len"

/-- Outcome of one HTTP GET at the transport layer: either a status code with
a decoded JSON body, or a transport-level failure (DNS, timeout, reset)
that aiohttp surfaces as a raised exception. -/
inductive HttpResult where
  | status (code : Nat) (body : PyVal)
  | transportFail (detail : String)

/-- The network oracle: what one GET of a given URL returns. -/
abbrev Net := String → HttpResult

/-- Whether the character list pat occurs at the head of l. -/
def leadsWith : List Char → List Char → Bool
  | [], _ => true
  | _ :: _, [] => false
  | a :: as, b :: bs => a == b && leadsWith as bs

/-- Whether pat occurs as a contiguous run inside s. -/
def hasSub (pat : List Char) : List Char → Bool
  | [] => leadsWith pat []
  | c :: rest => leadsWith pat (c :: rest) || hasSub pat rest

/-- Python substring test: pat in s. -/
def strContains (s pat : String) : Bool :=
  hasSub pat.data s.data

/-- Python str.lower(): lower-casing of every character (character-wise, as
CPython does for ASCII data such as the URLs this program builds). -/
def pyLower (s : String) : String :=
  String.mk (s.data.map Char.toLower)

/-- The PokedexMode enum of src/pokeretreiver/query.py (also duplicated in
src/pokedex.py). -/
inductive PokedexMode where
  | POKEMON
  | ABILITY
  | MOVE
deriving DecidableEq

/-- The value of each enum member. -/
def PokedexMode.value : PokedexMode → String
  | PokedexMode.POKEMON => "pokemon"
  | PokedexMode.ABILITY => "ability"
  | PokedexMode.MOVE => "move"

namespace JsonHelper

/-- JsonHelper.get_pokedex_object_data of src/pokeretreiver/query.py.
Performs one GET of url.lower() (pyLower); returns the decoded body when "200" occurs
in the status string, the empty dict when "404" occurs in it, and otherwise
falls off the end of the function returning Python None (Option.none).
A transport failure raises out of the coroutine (Except.error).
A non-string url raises AttributeError at the .lower() call. -/
def get_pokedex_object_data (net : Net) (url : PyVal) : Except String (Option PyVal) :=
  match url with
  | PyVal.str u =>
    match net (pyLower u) with
    | HttpResult.transportFail d => Except.error d
    | HttpResult.status code body =>
      if strContains (toString code) "200" then Except.ok (some body)
      else if strContains (toString code) "404" then Except.ok (some (PyVal.dict []))
      else Except.ok Option.none
  | _ => Except.error "AttributeError: object has no attribute lower"

end JsonHelper

/-- A network that answers every URL with HTTP 500 and an empty body. -/
def net500 : Net := fun _ => HttpResult.status 500 (PyVal.dict [])

/-- A network where every connection attempt fails at the transport layer. -/
def netBoom : Net := fun _ => HttpResult.transportFail "boom"

/-! ## The fan-out aggregator: asyncio.create_task + asyncio.gather -/

/-- What an awaited task contributes to the first-exception scan: its error
detail when it raised, nothing when it returned normally. -/
def taskError {α : Type} : Except String α → Option String
  | Except.error e => some e
  | Except.ok _ => Option.none

/-- The first exception raised among the tasks, scanning in completion
order. asyncio.gather (return_exceptions false) propagates exactly this
exception. -/
def firstError {α : Type} (tasks : List (Except String α)) (order : List Nat) : Option String :=
  (order.filterMap (fun i => (tasks[i]?).bind taskError)).head?

/-- The stream of completed tasks, tagged with their task index, in
completion order. Indices outside the batch complete nothing. -/
def completeTasks {α : Type} (tasks : List (Except String α)) (order : List Nat) :
    List (Nat × Except String α) :=
  order.filterMap (fun i => (tasks[i]?).map (fun t => (i, t)))

/-- Fan-in: one pre-sized result slot per task index, each filled from the
completion stream by its own index only, never by position. -/
def fanIn {α : Type} (n : Nat) (comps : List (Nat × Except String α)) :
    List (Option (Except String α)) :=
  (List.range n).map (fun i => (comps.find? (fun p => p.1 == i)).map Prod.snd)

/-- Collects the slot values when every slot was filled by a normal return. -/
def collectOk {α : Type} : List (Option (Except String α)) → Option (List α)
  | [] => some []
  | some (Except.ok v) :: rest => (collectOk rest).map (fun l => v :: l)
  | _ => Option.none

/-- asyncio.gather over a batch of tasks under a given completion order:
raises the first exception raised by any task, otherwise returns the list
of results in task order (not completion order). -/
def gather {α : Type} (tasks : List (Except String α)) (order : List Nat) :
    Except String (List α) :=
  match firstError tasks order with
  | some e => Except.error e
  | Option.none =>
    match collectOk (fanIn tasks.length (completeTasks tasks order)) with
    | some res => Except.ok res
    | Option.none => Except.error "gather: a task never completed"

/-- Sequencing of fallible per-item steps in a Python list comprehension:
the first raised exception aborts the comprehension. -/
def mapExcept {α β : Type} (f : α → Except String β) : List α → Except String (List β)
  | [] => Except.ok []
  | a :: as =>
    match f a with
    | Except.error e => Except.error e
    | Except.ok b =>
      match mapExcept f as with
      | Except.error e => Except.error e
      | Except.ok bs => Except.ok (b :: bs)

/-! ## JsonHelper.process_request -/

/-- The kind-specific base URL built by JsonHelper.process_request. -/
def pokeapiUrl (mode : PokedexMode) : String :=
  "https://pokeapi.co/api/v2/" ++ mode.value ++ "/"

namespace JsonHelper

/-- JsonHelper.process_request of src/pokeretreiver/query.py: one
get_pokedex_object_data task per identifier of request.input_data, run
concurrently under completion order `order` and gathered back in task
order. -/
def process_request (net : Net) (mode : PokedexMode) (input_data : List String)
    (order : List Nat) : Except String (List (Option PyVal)) :=
  gather (input_data.map
    (fun s => get_pokedex_object_data net (PyVal.str (pokeapiUrl mode ++ s)))) order

end JsonHelper

/-- A network fixture that answers every URL with HTTP 200 and a small body. -/
def net200 : Net :=
  fun _ => HttpResult.status 200 (PyVal.dict [("name", PyVal.str "bulbasaur")])

/-- A network where the fetch of move 2 fails at the transport layer and
every other URL answers HTTP 200. -/
def netMove2Fail : Net := fun u =>
  if u = "https://pokeapi.co/api/v2/move/2" then HttpResult.transportFail "boom"
  else HttpResult.status 200 (PyVal.dict [("name", PyVal.str "pound")])

/-! ## The record model: src/pokeretreiver/pokedex_objects.py -/

/-- Binding of a required Python parameter out of **kwargs: TypeError when
the caller did not supply it. -/
def requireKw (kvs : List (String × PyVal)) (k : String) : Except String PyVal :=
  match lookupKw kvs k with
  | some v => Except.ok v
  | Option.none => Except.error ("TypeError: missing required argument " ++ k)

/-- The Stat record: name and id (PokedexObject) plus is_battle_only, all
stored verbatim from the payload. -/
structure Stat where
  name : PyVal
  id : PyVal
  is_battle_only : PyVal

/-- Stat.__init__ as invoked by StatFactory.create_object(**kwargs). -/
def Stat.init (kwargs : List (String × PyVal)) : Except String Stat := do
  let is_battle_only ← requireKw kwargs "is_battle_only"
  let name ← requireKw kwargs "name"
  let id ← requireKw kwargs "id"
  Except.ok { name := name, id := id, is_battle_only := is_battle_only }

/-- The Move record. generation, type and damage_class hold the "name" entry
of the corresponding payload sub-dict; short_effect holds
effect_entries[0]["short_effect"]; the rest is stored verbatim. -/
structure Move where
  name : PyVal
  id : PyVal
  generation : PyVal
  accuracy : PyVal
  pp : PyVal
  power : PyVal
  type : PyVal
  damage_class : PyVal
  short_effect : PyVal

/-- Move.__init__ as invoked by MoveFactory.create_object(**kwargs): binds
the required parameters (a missing one raises TypeError, name and id
through the PokedexObject base), then extracts generation["name"],
type["name"], damage_class["name"] and effect_entries[0]["short_effect"]
in source order. -/
def Move.init (kwargs : List (String × PyVal)) : Except String Move := do
  let generation ← requireKw kwargs "generation"
  let accuracy ← requireKw kwargs "accuracy"
  let pp ← requireKw kwargs "pp"
  let power ← requireKw kwargs "power"
  let type ← requireKw kwargs "type"
  let damage_class ← requireKw kwargs "damage_class"
  let effect_entries ← requireKw kwargs "effect_entries"
  let name ← requireKw kwargs "name"
  let id ← requireKw kwargs "id"
  let gname ← generation.getItem "name"
  let tname ← type.getItem "name"
  let dname ← damage_class.getItem "name"
  let entry0 ← effect_entries.index 0
  let sh ← entry0.getItem "short_effect"
  Except.ok { name := name, id := id, generation := gname, accuracy := accuracy,
              pp := pp, power := power, type := tname, damage_class := dname,
              short_effect := sh }

/-- The Ability record. generation holds generation["name"]; effect and
short_effect hold effect_entries[1]["effect"] and
effect_entries[1]["short_effect"]; name, id and pokemon are stored
verbatim. -/
structure Ability where
  name : PyVal
  id : PyVal
  generation : PyVal
  effect : PyVal
  short_effect : PyVal
  pokemon : PyVal

/-- Ability.__init__ as invoked by AbilityFactory.create_object(**kwargs):
binds the required parameters (missing ones raise TypeError, name and id
through the PokedexObject base), then extracts generation["name"] and the
two effect texts of effect_entries[1] in source order. -/
def Ability.init (kwargs : List (String × PyVal)) : Except String Ability := do
  let generation ← requireKw kwargs "generation"
  let effect_entries ← requireKw kwargs "effect_entries"
  let pokemon ← requireKw kwargs "pokemon"
  let name ← requireKw kwargs "name"
  let id ← requireKw kwargs "id"
  let gname ← generation.getItem "name"
  let entry1 ← effect_entries.index 1
  let eff ← entry1.getItem "effect"
  let sh ← entry1.getItem "short_effect"
  Except.ok { name := name, id := id, generation := gname, effect := eff,
              short_effect := sh, pokemon := pokemon }

/-- One of the three reference lists of a Pokemon. Python retypes the field
in place during expansion, so the field ranges over the raw payload value
(a list of reference dicts as fetched) or one of the materialized
sub-record lists that expand_attributes assigns. -/
inductive PokeList where
  | raw (v : PyVal)
  | stats (xs : List Stat)
  | moves (xs : List Move)
  | abilities (xs : List Ability)

/-- The Pokemon (Creature) record: name and id (PokedexObject), height,
weight and types stored verbatim, the three reference lists, and the
is_expanded flag (False unless passed as a keyword argument). -/
structure Pokemon where
  name : PyVal
  id : PyVal
  height : PyVal
  weight : PyVal
  types : PyVal
  stats : PokeList
  moves : PokeList
  abilities : PokeList
  is_expanded : Bool

/-- Pokemon.__init__ as invoked by PokemonFactory.create_object(**kwargs):
binds the required parameters (missing ones raise TypeError, name and id
through the PokedexObject base); is_expanded defaults to False and is True
only when the call site passes is_expanded=True. -/
def Pokemon.init (kwargs : List (String × PyVal)) : Except String Pokemon := do
  let height ← requireKw kwargs "height"
  let weight ← requireKw kwargs "weight"
  let stats ← requireKw kwargs "stats"
  let types ← requireKw kwargs "types"
  let abilities ← requireKw kwargs "abilities"
  let moves ← requireKw kwargs "moves"
  let name ← requireKw kwargs "name"
  let id ← requireKw kwargs "id"
  let is_expanded := match lookupKw kwargs "is_expanded" with
    | some (PyVal.bool b) => b
    | _ => false
  Except.ok { name := name, id := id, height := height, weight := weight,
              types := types, stats := PokeList.raw stats,
              moves := PokeList.raw moves, abilities := PokeList.raw abilities,
              is_expanded := is_expanded }

/-! ## The expansion engine: JsonHelper.get_stats, get_moves, get_abilities
and JsonHelper.expand_attributes of src/pokeretreiver/query.py -/

/-- The value a fan-out helper iterates as a reference list: the raw payload
list still stored in the field. Iterating and subscripting anything else
(including an already materialized sub-record list) raises. -/
def refListOf : PokeList → Except String (List PyVal)
  | PokeList.raw (PyVal.list xs) => Except.ok xs
  | _ => Except.error "TypeError: reference entries are not subscriptable dicts"

/-- The nested URL extraction ref[key]["url"] performed while the task list
of a fan-out helper is built. -/
def refUrl (key : String) (ref : PyVal) : Except String PyVal := do
  let inner ← ref.getItem key
  inner.getItem "url"

namespace JsonHelper

/-- JsonHelper.get_stats: one get_pokedex_object_data task per entry of
pokemon.stats over stat["stat"]["url"], gathered under completion order
ord. -/
def get_stats (net : Net) (ord : List Nat) (p : Pokemon) :
    Except String (List (Option PyVal)) := do
  let refs ← refListOf p.stats
  let urls ← mapExcept (refUrl "stat") refs
  gather (urls.map (get_pokedex_object_data net)) ord

/-- JsonHelper.get_moves: one task per entry of pokemon.moves over
move["move"]["url"]. -/
def get_moves (net : Net) (ord : List Nat) (p : Pokemon) :
    Except String (List (Option PyVal)) := do
  let refs ← refListOf p.moves
  let urls ← mapExcept (refUrl "move") refs
  gather (urls.map (get_pokedex_object_data net)) ord

/-- JsonHelper.get_abilities: one task per entry of pokemon.abilities over
ability["ability"]["url"]. -/
def get_abilities (net : Net) (ord : List Nat) (p : Pokemon) :
    Except String (List (Option PyVal)) := do
  let refs ← refListOf p.abilities
  let urls ← mapExcept (refUrl "ability") refs
  gather (urls.map (get_pokedex_object_data net)) ord

end JsonHelper

/-- The list comprehension building Stat objects from the fetched responses:
stat_factory.create_object(**stat) for every response, first exception
aborts. -/
def buildStats (resps : List (Option PyVal)) : Except String (List Stat) :=
  mapExcept (fun st => do Stat.init (← kwargsOf st)) resps

/-- The list comprehension building Move objects from the fetched responses. -/
def buildMoves (resps : List (Option PyVal)) : Except String (List Move) :=
  mapExcept (fun mv => do Move.init (← kwargsOf mv)) resps

/-- The list comprehension building Ability objects from the fetched
responses. -/
def buildAbilities (resps : List (Option PyVal)) : Except String (List Ability) :=
  mapExcept (fun ab => do Ability.init (← kwargsOf ab)) resps

namespace JsonHelper

/-- JsonHelper.expand_attributes: three sequential fan-out batches (stats,
then moves, then abilities, each under its own completion order); each
batch's responses are passed to the corresponding factory with **response
and the materialized list is assigned in place of the reference list; a
raised exception anywhere propagates out of the call. -/
def expand_attributes (net : Net) (ordS ordM ordA : List Nat) (p : Pokemon) :
    Except String Pokemon := do
  let stats ← get_stats net ordS p
  let statObjs ← buildStats stats
  let p1 : Pokemon := { p with stats := PokeList.stats statObjs }
  let moves ← get_moves net ordM p1
  let moveObjs ← buildMoves moves
  let p2 : Pokemon := { p1 with moves := PokeList.moves moveObjs }
  let abilities ← get_abilities net ordA p2
  let abilityObjs ← buildAbilities abilities
  Except.ok { p2 with abilities := PokeList.abilities abilityObjs }

end JsonHelper

/-- A well-formed stat payload as the remote service returns it. -/
def statPayloadW : PyVal :=
  PyVal.dict [("name", PyVal.str "speed"), ("id", PyVal.int 6),
              ("is_battle_only", PyVal.bool false)]

/-- A well-formed move payload as the remote service returns it. -/
def movePayloadW : PyVal :=
  PyVal.dict [("name", PyVal.str "pound"), ("id", PyVal.int 1),
    ("generation", PyVal.dict [("name", PyVal.str "generation-i")]),
    ("accuracy", PyVal.int 100), ("pp", PyVal.int 35), ("power", PyVal.int 40),
    ("type", PyVal.dict [("name", PyVal.str "normal")]),
    ("damage_class", PyVal.dict [("name", PyVal.str "physical")]),
    ("effect_entries", PyVal.list [PyVal.dict [("short_effect", PyVal.str "hits")]])]

/-- A well-formed ability payload as the remote service returns it. -/
def abilityPayloadW : PyVal :=
  PyVal.dict [("name", PyVal.str "static"), ("id", PyVal.int 9),
    ("generation", PyVal.dict [("name", PyVal.str "generation-iii")]),
    ("effect_entries", PyVal.list
      [PyVal.dict [("effect", PyVal.str "e0"), ("short_effect", PyVal.str "s0")],
       PyVal.dict [("effect", PyVal.str "e1"), ("short_effect", PyVal.str "s1")]]),
    ("pokemon", PyVal.list [])]

/-- A network where the stat URL su2 fails at the transport layer and every
other URL answers HTTP 200 with a stat payload. -/
def netStatFail : Net := fun u =>
  if u = "su2" then HttpResult.transportFail "boom"
  else HttpResult.status 200 statPayloadW

/-- A Creature holding two raw stat references and no moves or abilities. -/
def pokeTwoStats : Pokemon :=
  { name := PyVal.str "pikachu", id := PyVal.int 25, height := PyVal.int 4,
    weight := PyVal.int 60, types := PyVal.list [],
    stats := PokeList.raw (PyVal.list
      [PyVal.dict [("stat", PyVal.dict [("url", PyVal.str "su1")])],
       PyVal.dict [("stat", PyVal.dict [("url", PyVal.str "su2")])]]),
    moves := PokeList.raw (PyVal.list []),
    abilities := PokeList.raw (PyVal.list []),
    is_expanded := true }

/-- A network where every reference URL resolves with HTTP 200 and a payload
of the matching kind. -/
def netExpandOk : Net := fun u =>
  if u = "su1" then HttpResult.status 200 statPayloadW
  else if u = "mu1" then HttpResult.status 200 movePayloadW
  else HttpResult.status 200 abilityPayloadW

/-- A Creature holding one raw stat, one raw move and one raw ability
reference. -/
def pokeOneEach : Pokemon :=
  { name := PyVal.str "pikachu", id := PyVal.int 25, height := PyVal.int 4,
    weight := PyVal.int 60, types := PyVal.list [],
    stats := PokeList.raw (PyVal.list
      [PyVal.dict [("stat", PyVal.dict [("url", PyVal.str "su1")])]]),
    moves := PokeList.raw (PyVal.list
      [PyVal.dict [("move", PyVal.dict [("url", PyVal.str "mu1")])]]),
    abilities := PokeList.raw (PyVal.list
      [PyVal.dict [("ability", PyVal.dict [("url", PyVal.str "au1")])]]),
    is_expanded := true }

/-- The Stat record materialized from statPayloadW. -/
def statObjW : Stat :=
  { name := PyVal.str "speed", id := PyVal.int 6,
    is_battle_only := PyVal.bool false }

/-- The Move record materialized from movePayloadW. -/
def moveObjW : Move :=
  { name := PyVal.str "pound", id := PyVal.int 1,
    generation := PyVal.str "generation-i", accuracy := PyVal.int 100,
    pp := PyVal.int 35, power := PyVal.int 40, type := PyVal.str "normal",
    damage_class := PyVal.str "physical", short_effect := PyVal.str "hits" }

/-- The Ability record materialized from abilityPayloadW. -/
def abilityObjW : Ability :=
  { name := PyVal.str "static", id := PyVal.int 9,
    generation := PyVal.str "generation-iii", effect := PyVal.str "e1",
    short_effect := PyVal.str "s1", pokemon := PyVal.list [] }

/-- The Creature that expanding pokeOneEach under netExpandOk produces. -/
def pokeOneEachExpanded : Pokemon :=
  { name := PyVal.str "pikachu", id := PyVal.int 25, height := PyVal.int 4,
    weight := PyVal.int 60, types := PyVal.list [],
    stats := PokeList.stats [statObjW],
    moves := PokeList.moves [moveObjW],
    abilities := PokeList.abilities [abilityObjW],
    is_expanded := true }

/-! ## The materialized object kinds and the factory dispatch -/

/-- A constructed pokedex object of any of the four kinds. -/
inductive PokedexObjectV where
  | pokemon (p : Pokemon)
  | ability (a : Ability)
  | move (m : Move)
  | stat (s : Stat)

/-- The pokedex_object_factory_mapper dispatch followed by
create_object(**kwargs): each factory forwards its keyword arguments to the
constructor of its kind (StatFactory is used only by the expansion
engine). -/
def factoryCreate (mode : PokedexMode) (kwargs : List (String × PyVal)) :
    Except String PokedexObjectV :=
  match mode with
  | PokedexMode.POKEMON => (Pokemon.init kwargs).map PokedexObjectV.pokemon
  | PokedexMode.ABILITY => (Ability.init kwargs).map PokedexObjectV.ability
  | PokedexMode.MOVE => (Move.init kwargs).map PokedexObjectV.move

/-- One entry of the result list QueryMaster.execute_request builds: either a
constructed pokedex object or the literal skip string stored for an empty
payload. -/
inductive ResultItem where
  | obj (o : PokedexObjectV)
  | msg (s : String)

/-- The error string QueryMaster.execute_request stores for a skipped item. -/
def skipErrorMsg : String := "An error occurred. Skipping this request.\n"

namespace QueryMaster

/-- QueryMaster.execute_request of src/pokeretreiver/query.py: runs
JsonHelper.process_request, then builds one object per response, storing
the skip string when len(info) is zero and raising when info is None
(len of None) or construction fails; under POKEMON mode with expanded
True each object is built with is_expanded=True and every non-string
entry is then passed through JsonHelper.expand_attributes (modelled with
one triple of completion orders shared by the per-object expansions).
This method is defined in the repository but never invoked by the wired
pipeline of src/pokedex.py. -/
def execute_request (net : Net) (order ordS ordM ordA : List Nat)
    (mode : PokedexMode) (expanded : Bool) (input_data : List String) :
    Except String (List ResultItem) := do
  let result ← JsonHelper.process_request net mode input_data order
  if mode = PokedexMode.POKEMON ∧ expanded = true then do
    let step1 ← mapExcept (fun info => do
      let n ← lenOfPy info
      if n > 0 then do
        let kw ← kwargsOf info
        let o ← factoryCreate mode (kw ++ [("is_expanded", PyVal.bool true)])
        Except.ok (ResultItem.obj o)
      else Except.ok (ResultItem.msg skipErrorMsg)) result
    mapExcept (fun item =>
      match item with
      | ResultItem.msg s => Except.ok (ResultItem.msg s)
      | ResultItem.obj (PokedexObjectV.pokemon p) => do
        let p2 ← JsonHelper.expand_attributes net ordS ordM ordA p
        Except.ok (ResultItem.obj (PokedexObjectV.pokemon p2))
      | ResultItem.obj _ =>
        Except.error "AttributeError: object has no attribute stats") step1
  else
    mapExcept (fun info => do
      let n ← lenOfPy info
      if n > 0 then do
        let kw ← kwargsOf info
        let o ← factoryCreate mode kw
        Except.ok (ResultItem.obj o)
      else Except.ok (ResultItem.msg skipErrorMsg)) result

end QueryMaster

/-! ## The pipeline of src/pokedex.py -/

/-- The Request object of src/pokedex.py after argument parsing: the mode,
the literal input data string, the optional input file name (mutually
exclusive with the literal string), the expanded flag and the output
target ("print" or a file name). -/
structure Request where
  mode : PokedexMode
  input_data : String
  input_file : Option String
  expanded : Bool
  output : String

/-- Python whitespace for str.strip(). -/
def pySpace (c : Char) : Bool :=
  c = ' ' || c = '\t' || c = '\n' || c = '\x0b' || c = '\x0c' || c = '\r'

/-- Python str.strip(): removes leading and trailing whitespace. -/
def pyStrip (s : String) : String :=
  String.mk (((s.data.dropWhile pySpace).reverse.dropWhile pySpace).reverse)

/-- Python str.split(sep) for a one-character separator, over the character
list: one part per run between separator occurrences, empty parts
preserved (so n separators give n+1 parts). -/
def pySplitChar (sep : Char) : List Char → List (List Char)
  | [] => [[]]
  | c :: rest =>
    match pySplitChar sep rest with
    | [] => [[]]
    | cur :: parts => if c = sep then [] :: cur :: parts else (c :: cur) :: parts

/-- Python s.split(sep) for a one-character separator. -/
def pySplit (sep : Char) (s : String) : List String :=
  (pySplitChar sep s.data).map String.mk

namespace InputHandler

/-- The input-normalization effect of InputHandler.handle_request of
src/pokedex.py: request.input_data is replaced by the list obtained by
splitting the literal input string on the single space character (when no
input file was given) or by the lines of the input file (fs returns the
readlines content of a file), and then every entry is stripped. The
handler then forwards the request to the next stage. -/
def handle_request (fs : String → List String) (req : Request) : List String :=
  match req.input_file with
  | Option.none => (pySplit ' ' req.input_data).map pyStrip
  | some f => (fs f).map pyStrip

end InputHandler

/-- The names bound at top level of module pokeretreiver.query: the imported
names and the classes defined in the module. The coroutine
process_request is defined inside the JsonHelper class, not at module
level. -/
def queryModuleNames : List String :=
  ["ClientSession", "asyncio", "Request", "PokemonFactory", "AbilityFactory",
   "MoveFactory", "StatFactory", "Enum", "PokedexMode", "QueryMaster",
   "JsonHelper"]

/-- The exception raised by the attribute lookup
pokeretreiver.query.process_request. -/
def attributeErrorMsg : String :=
  "AttributeError: module pokeretreiver.query has no attribute process_request"

namespace QueryHandler

/-- QueryHandler.handle_request of src/pokedex.py: resolves the attribute
pokeretreiver.query.process_request; the module binds no such top-level
name, so the lookup raises AttributeError before any fetch happens. Had
the name resolved to the intended coroutine, the stage would run it and
build one object per response with create_object(**info) - with no
per-item failure marker and no use of request.expanded - and forward to
the next handler; that continuation is kept for completeness but is
unreachable. -/
def handle_request (net : Net) (order : List Nat) (mode : PokedexMode)
    (expanded : Bool) (ids : List String) :
    Except String (List PokedexObjectV) :=
  if queryModuleNames.contains "process_request" then
    match JsonHelper.process_request net mode ids order with
    | Except.error e => Except.error e
    | Except.ok result =>
      mapExcept (fun info => do
        let kw ← kwargsOf info
        factoryCreate mode kw) result
  else
    Except.error attributeErrorMsg

end QueryHandler

/-- The observable effects of the render stage: the lines printed to the
console and the files opened for writing with the content written to
each. -/
structure OutputEffects where
  printed : List String
  written : List (String × String)

namespace OutputHandler

/-- OutputHandler.handle_request of src/pokedex.py: when the output target
is the console marker "print", prints a blank line and one rendered record
per result; then - unconditionally, because the else branch is commented
out in the source - opens the file named by the output field in write mode
and writes one rendered record plus newline per result; finally reports
success. results holds the rendered text of each result entry (text
formatting is the external collaborator). -/
def handle_request (output : String) (results : List String) :
    OutputEffects × (String × Bool) :=
  ({ printed := if output = "print" then "" :: results else [],
     written := [(output, String.join (results.map (fun r => r ++ "\n")))] },
   ("", true))

end OutputHandler

/-- A request carrying a double space in its literal input data. -/
def reqDoubleSpace : Request :=
  { mode := PokedexMode.POKEMON, input_data := "1  2",
    input_file := Option.none, expanded := false, output := "print" }

/-- A request carrying a tab in its literal input data. -/
def reqTabbed : Request :=
  { mode := PokedexMode.POKEMON, input_data := "1\t2",
    input_file := Option.none, expanded := false, output := "print" }

/-! ## Theorems settling the claims, with their supporting lemmas and witnesses -/

/-- Claim C2: for every URL, one fetch performs exactly one GET and
classifies the outcome into exactly three cases: 200 yields the payload,
404 yields the NotFound outcome without raising, and any other status or
transport failure yields a TransportError value; it never returns a value
outside these three cases. REFUTED at a concrete input: an HTTP 500
response makes get_pokedex_object_data return Python None (a value outside
the three claimed cases, not a TransportError value), and a transport-level
failure raises out of the coroutine instead of returning an error value. -/
theorem get_pokedex_object_data_not_three_cases :
    JsonHelper.get_pokedex_object_data net500 (PyVal.str "https://pokeapi.co/api/v2/pokemon/1")
      = Except.ok Option.none ∧
    JsonHelper.get_pokedex_object_data netBoom (PyVal.str "https://pokeapi.co/api/v2/pokemon/1")
      = Except.error "boom" := by
  constructor
  · rfl
  · rfl

/-- Claim C2, amended: one fetch of a string URL issues its single GET on the
lower-cased URL and classifies the outcome into exactly four cases: a
transport-level failure propagates as a raised exception carrying the
detail; a status containing "200" returns the decoded body; otherwise a
status containing "404" returns the empty dict; any other status returns
Python None. -/
theorem get_pokedex_object_data_classification (net : Net) (u : String) :
    (∃ d, net (pyLower u) = HttpResult.transportFail d ∧
      JsonHelper.get_pokedex_object_data net (PyVal.str u) = Except.error d) ∨
    (∃ code body, net (pyLower u) = HttpResult.status code body ∧
      strContains (toString code) "200" = true ∧
      JsonHelper.get_pokedex_object_data net (PyVal.str u) = Except.ok (some body)) ∨
    (∃ code body, net (pyLower u) = HttpResult.status code body ∧
      strContains (toString code) "200" = false ∧
      strContains (toString code) "404" = true ∧
      JsonHelper.get_pokedex_object_data net (PyVal.str u) = Except.ok (some (PyVal.dict []))) ∨
    (∃ code body, net (pyLower u) = HttpResult.status code body ∧
      strContains (toString code) "200" = false ∧
      strContains (toString code) "404" = false ∧
      JsonHelper.get_pokedex_object_data net (PyVal.str u) = Except.ok Option.none) := by
  cases h : net (pyLower u) with
  | transportFail d =>
    refine Or.inl ⟨d, rfl, ?_⟩
    simp [JsonHelper.get_pokedex_object_data, h]
  | status code body =>
    by_cases h200 : strContains (toString code) "200" = true
    · refine Or.inr (Or.inl ⟨code, body, rfl, h200, ?_⟩)
      simp [JsonHelper.get_pokedex_object_data, h, h200]
    · by_cases h404 : strContains (toString code) "404" = true
      · refine Or.inr (Or.inr (Or.inl ⟨code, body, rfl, ?_, h404, ?_⟩))
        · exact eq_false_of_ne_true h200
        · simp [JsonHelper.get_pokedex_object_data, h, eq_false_of_ne_true h200, h404]
      · refine Or.inr (Or.inr (Or.inr ⟨code, body, rfl, ?_, ?_, ?_⟩))
        · exact eq_false_of_ne_true h200
        · exact eq_false_of_ne_true h404
        · simp [JsonHelper.get_pokedex_object_data, h,
            eq_false_of_ne_true h200, eq_false_of_ne_true h404]

theorem completeTasks_find {α : Type} (tasks : List (Except String α)) (order : List Nat)
    (i : Nat) (h : i < tasks.length) (hmem : i ∈ order) :
    (completeTasks tasks order).find? (fun p => p.1 == i) = some (i, tasks[i]) := by
  induction order with
  | nil => cases hmem
  | cons j rest ih =>
    simp only [completeTasks] at ih ⊢
    rw [List.filterMap_cons]
    by_cases hij : j = i
    · subst hij
      rw [List.getElem?_eq_getElem h]
      simp
    · have hr : i ∈ rest := by
        cases hmem with
        | head => exact absurd rfl hij
        | tail _ hm => exact hm
      cases hj : tasks[j]? with
      | none => simpa using ih hr
      | some t =>
        simp only [Option.map_some']
        rw [List.find?_cons_of_neg _ (by simp [hij])]
        exact ih hr

theorem fanIn_complete {α : Type} (tasks : List (Except String α)) (order : List Nat)
    (hall : ∀ i, i < tasks.length → i ∈ order) :
    fanIn tasks.length (completeTasks tasks order) = tasks.map some := by
  apply List.ext_getElem
  · simp [fanIn]
  · intro n h1 h2
    have hn : n < tasks.length := by simpa [fanIn] using h1
    simp only [fanIn, List.getElem_map, List.getElem_range]
    rw [completeTasks_find tasks order n hn (hall n hn)]
    rfl

theorem collectOk_map_some {α : Type} (tasks : List (Except String α))
    (hok : ∀ t ∈ tasks, ∃ v, t = Except.ok v) :
    ∃ vs, collectOk (tasks.map some) = some vs ∧ vs.length = tasks.length ∧
      ∀ i (h : i < tasks.length) (h2 : i < vs.length), tasks[i] = Except.ok vs[i] := by
  induction tasks with
  | nil => exact ⟨[], rfl, rfl, fun i h _ => absurd h (Nat.not_lt_zero i)⟩
  | cons t ts ih =>
    obtain ⟨v, hv⟩ := hok t (List.mem_cons_self t ts)
    obtain ⟨vs, hvs, hlen, hpt⟩ := ih (fun x hx => hok x (List.mem_cons_of_mem t hx))
    subst hv
    refine ⟨v :: vs, ?_, by simp [hlen], ?_⟩
    · simp [collectOk, hvs]
    · intro i h h2
      cases i with
      | zero => rfl
      | succ n => exact hpt n (Nat.lt_of_succ_lt_succ h) (Nat.lt_of_succ_lt_succ h2)

theorem firstError_eq_none {α : Type} (tasks : List (Except String α)) (order : List Nat)
    (hok : ∀ t ∈ tasks, ∃ v, t = Except.ok v) :
    firstError tasks order = Option.none := by
  have hnil : order.filterMap (fun i => (tasks[i]?).bind taskError) = [] := by
    rw [List.filterMap_eq_nil_iff]
    intro i _
    cases hj : tasks[i]? with
    | none => rfl
    | some t =>
      obtain ⟨v, hv⟩ := hok t (List.getElem?_mem hj)
      subst hv
      rfl
  simp [firstError, hnil]

theorem gather_all_ok {α : Type} (tasks : List (Except String α)) (order : List Nat)
    (hall : ∀ i, i < tasks.length → i ∈ order)
    (hok : ∀ t ∈ tasks, ∃ v, t = Except.ok v) :
    ∃ vs, gather tasks order = Except.ok vs ∧ vs.length = tasks.length ∧
      ∀ i (h : i < tasks.length) (h2 : i < vs.length), tasks[i] = Except.ok vs[i] := by
  obtain ⟨vs, hvs, hlen, hpt⟩ := collectOk_map_some tasks hok
  refine ⟨vs, ?_, hlen, hpt⟩
  simp only [gather, firstError_eq_none tasks order hok,
    fanIn_complete tasks order hall, hvs]

theorem gather_error {α : Type} (tasks : List (Except String α)) (order : List Nat)
    (i : Nat) (h : i < tasks.length) (e : String)
    (herr : tasks[i] = Except.error e) (hmem : i ∈ order) :
    ∃ d, gather tasks order = Except.error d := by
  have hne : firstError tasks order ≠ Option.none := by
    simp only [firstError]
    intro hcon
    rw [List.head?_eq_none_iff, List.filterMap_eq_nil_iff] at hcon
    have hx := hcon i hmem
    rw [List.getElem?_eq_getElem h, herr] at hx
    simp [taskError] at hx
  cases hfe : firstError tasks order with
  | none => exact absurd hfe hne
  | some d => exact ⟨d, by simp only [gather, hfe]⟩

/-- Claim C1: for every ordered sequence of identifier strings, the fan-out
aggregator returns a result sequence of identical length, where the entry
at position i is the outcome of fetching identifier i, regardless of the
order in which the concurrent fetches complete. Established here whenever
every per-item fetch completes without raising (the raising case is the
subject of claim C3): for every completion order that is a permutation of
the task indices, the result has the same length as the input and slot i
holds exactly the outcome of the fetch of identifier i. -/
theorem process_request_length_and_order (net : Net) (mode : PokedexMode)
    (input_data : List String) (order : List Nat)
    (hperm : order.Perm (List.range input_data.length))
    (hok : ∀ i (h : i < input_data.length), ∃ v,
      JsonHelper.get_pokedex_object_data net
        (PyVal.str (pokeapiUrl mode ++ input_data[i])) = Except.ok v) :
    ∃ res, JsonHelper.process_request net mode input_data order = Except.ok res ∧
      res.length = input_data.length ∧
      ∀ i (h : i < input_data.length) (h2 : i < res.length),
        Except.ok res[i] = JsonHelper.get_pokedex_object_data net
          (PyVal.str (pokeapiUrl mode ++ input_data[i])) := by
  have hlen : (input_data.map
      (fun s => JsonHelper.get_pokedex_object_data net
        (PyVal.str (pokeapiUrl mode ++ s)))).length = input_data.length := by
    simp
  have hall : ∀ i, i < (input_data.map
      (fun s => JsonHelper.get_pokedex_object_data net
        (PyVal.str (pokeapiUrl mode ++ s)))).length → i ∈ order := by
    intro i hi
    exact hperm.mem_iff.2 (List.mem_range.2 (hlen ▸ hi))
  have hok2 : ∀ t ∈ (input_data.map
      (fun s => JsonHelper.get_pokedex_object_data net
        (PyVal.str (pokeapiUrl mode ++ s)))), ∃ v, t = Except.ok v := by
    intro t ht
    rw [List.mem_map] at ht
    obtain ⟨s, hs, rfl⟩ := ht
    obtain ⟨j, hj, rfl⟩ := List.mem_iff_getElem.1 hs
    exact hok j hj
  obtain ⟨vs, hg, hlen2, hpt⟩ := gather_all_ok _ order hall hok2
  refine ⟨vs, hg, by simpa [hlen] using hlen2, ?_⟩
  intro i h h2
  have h3 : i < (input_data.map
      (fun s => JsonHelper.get_pokedex_object_data net
        (PyVal.str (pokeapiUrl mode ++ s)))).length := by
    simpa [hlen] using h
  have hx := hpt i h3 h2
  simp only [List.getElem_map] at hx
  exact hx.symm

/-- Witness for C1 at a concrete batch and non-identity completion order. -/
theorem process_request_length_and_order_witness :
    ∃ res, JsonHelper.process_request net200 PokedexMode.POKEMON ["1", "2"] [1, 0]
        = Except.ok res ∧
      res.length = (["1", "2"] : List String).length ∧
      ∀ i (h : i < (["1", "2"] : List String).length) (h2 : i < res.length),
        Except.ok res[i] = JsonHelper.get_pokedex_object_data net200
          (PyVal.str (pokeapiUrl PokedexMode.POKEMON ++ (["1", "2"] : List String)[i])) :=
  process_request_length_and_order net200 PokedexMode.POKEMON ["1", "2"] [1, 0]
    (by decide)
    (fun i h => ⟨some (PyVal.dict [("name", PyVal.str "bulbasaur")]), rfl⟩)

/-- Claim C3: if the fetch of one item fails with a transport-level error,
the aggregator still returns Found or NotFound outcomes for every other
item and never raises for an individual item failure. REFUTED at a concrete
input: in the batch ["1", "2"] only item "2" fails at the transport layer,
yet process_request raises that exception for the whole batch and returns
no outcome for item "1". -/
theorem process_request_batch_error_cex :
    JsonHelper.process_request netMove2Fail PokedexMode.MOVE ["1", "2"] [0, 1]
      = Except.error "boom" := by
  rfl

/-- Claim C3, amended: a transport-level failure of a single item is not
isolated: whenever the fetch of some identifier raises (and that task is
scheduled at all, in particular under any permutation completion order),
JsonHelper.process_request propagates an exception for the whole batch
instead of returning a result sequence. Per-item recovery exists only for
HTTP 404 and other non-raising statuses. -/
theorem process_request_transport_error_aborts_batch (net : Net) (mode : PokedexMode)
    (input_data : List String) (order : List Nat) (i : Nat)
    (h : i < input_data.length) (e : String)
    (herr : JsonHelper.get_pokedex_object_data net
      (PyVal.str (pokeapiUrl mode ++ input_data[i])) = Except.error e)
    (hmem : i ∈ order) :
    ∃ d, JsonHelper.process_request net mode input_data order = Except.error d := by
  have h2 : i < (input_data.map
      (fun s => JsonHelper.get_pokedex_object_data net
        (PyVal.str (pokeapiUrl mode ++ s)))).length := by
    simpa using h
  refine gather_error _ order i h2 e ?_ hmem
  simpa using herr

/-- Witness for the amended C3 at a concrete input. -/
theorem process_request_transport_error_aborts_batch_witness :
    ∃ d, JsonHelper.process_request netMove2Fail PokedexMode.MOVE ["7", "2"] [1, 0]
      = Except.error d :=
  process_request_transport_error_aborts_batch netMove2Fail PokedexMode.MOVE
    ["7", "2"] [1, 0] 1 (by decide) "boom" rfl (by decide)

/-- Claim C8: Ability and Move construction fails whenever effect-entries
lacks the indexed entry (Ability entry 1, Move entry 0) and succeeds in
extracting effect text when present; every successful construction has
non-empty name and id. The last part is REFUTED at a concrete input:
construction copies name and id verbatim with no emptiness check, so an
otherwise well-formed payload whose name and id are empty strings
constructs successfully. -/
theorem record_empty_name_cex :
    Ability.init
      [("name", PyVal.str ""), ("id", PyVal.str ""),
       ("generation", PyVal.dict [("name", PyVal.str "generation-v")]),
       ("effect_entries", PyVal.list
         [PyVal.dict [("effect", PyVal.str "e0"), ("short_effect", PyVal.str "s0")],
          PyVal.dict [("effect", PyVal.str "e1"), ("short_effect", PyVal.str "s1")]]),
       ("pokemon", PyVal.list [])]
    = Except.ok { name := PyVal.str "", id := PyVal.str "",
                  generation := PyVal.str "generation-v",
                  effect := PyVal.str "e1", short_effect := PyVal.str "s1",
                  pokemon := PyVal.list [] } := by
  rfl

/-- Claim C8, amended: for payloads carrying the schema field paths, Ability
construction fails exactly when effect_entries has no entry at index 1 and
Move construction fails when effect_entries is empty; when the indexed
entry is present with its effect texts, construction succeeds and copies
name and id verbatim from the payload, with no non-emptiness check. -/
theorem effect_entries_index_policy (nm idv gname pok acc ppv pow tname dname : PyVal)
    (entries : List PyVal) :
    (entries.length ≤ 1 → ∃ e, Ability.init
        [("name", nm), ("id", idv), ("generation", PyVal.dict [("name", gname)]),
         ("effect_entries", PyVal.list entries), ("pokemon", pok)]
      = Except.error e) ∧
    (entries.length = 0 → ∃ e, Move.init
        [("name", nm), ("id", idv), ("generation", PyVal.dict [("name", gname)]),
         ("accuracy", acc), ("pp", ppv), ("power", pow),
         ("type", PyVal.dict [("name", tname)]),
         ("damage_class", PyVal.dict [("name", dname)]),
         ("effect_entries", PyVal.list entries)]
      = Except.error e) ∧
    (∀ d eff sh, entries[1]? = some (PyVal.dict d) →
      lookupKw d "effect" = some eff → lookupKw d "short_effect" = some sh →
      Ability.init
        [("name", nm), ("id", idv), ("generation", PyVal.dict [("name", gname)]),
         ("effect_entries", PyVal.list entries), ("pokemon", pok)]
      = Except.ok { name := nm, id := idv, generation := gname, effect := eff,
                    short_effect := sh, pokemon := pok }) ∧
    (∀ d sh, entries[0]? = some (PyVal.dict d) →
      lookupKw d "short_effect" = some sh →
      Move.init
        [("name", nm), ("id", idv), ("generation", PyVal.dict [("name", gname)]),
         ("accuracy", acc), ("pp", ppv), ("power", pow),
         ("type", PyVal.dict [("name", tname)]),
         ("damage_class", PyVal.dict [("name", dname)]),
         ("effect_entries", PyVal.list entries)]
      = Except.ok { name := nm, id := idv, generation := gname, accuracy := acc,
                    pp := ppv, power := pow, type := tname, damage_class := dname,
                    short_effect := sh }) := by
  refine ⟨?_, ?_, ?_, ?_⟩
  · intro hlen
    refine ⟨"IndexError: list index out of range", ?_⟩
    have h1 : entries[1]? = (Option.none : Option PyVal) :=
      List.getElem?_eq_none hlen
    simp [Ability.init, requireKw, lookupKw, PyVal.getItem, PyVal.index, h1,
      Bind.bind, Except.bind]
  · intro hlen
    refine ⟨"IndexError: list index out of range", ?_⟩
    have h0 : entries[0]? = (Option.none : Option PyVal) :=
      List.getElem?_eq_none (by omega)
    simp [Move.init, requireKw, lookupKw, PyVal.getItem, PyVal.index, h0,
      Bind.bind, Except.bind]
  · intro d eff sh h1 heff hsh
    simp only [lookupKw] at heff hsh
    simp [Ability.init, requireKw, lookupKw, PyVal.getItem, PyVal.index, h1, heff, hsh,
      Bind.bind, Except.bind]
  · intro d sh h0 hsh
    simp only [lookupKw] at hsh
    simp [Move.init, requireKw, lookupKw, PyVal.getItem, PyVal.index, h0, hsh,
      Bind.bind, Except.bind]

/-- Witness for the amended C8: both failure conjuncts at an empty
effect-entries list and both success conjuncts at a two-entry list. -/
theorem effect_entries_index_policy_witness :
    (∃ e, Ability.init
        [("name", PyVal.str "stench"), ("id", PyVal.int 1),
         ("generation", PyVal.dict [("name", PyVal.str "generation-iii")]),
         ("effect_entries", PyVal.list []), ("pokemon", PyVal.list [])]
      = Except.error e) ∧
    (∃ e, Move.init
        [("name", PyVal.str "pound"), ("id", PyVal.int 1),
         ("generation", PyVal.dict [("name", PyVal.str "generation-i")]),
         ("accuracy", PyVal.int 100), ("pp", PyVal.int 35), ("power", PyVal.int 40),
         ("type", PyVal.dict [("name", PyVal.str "normal")]),
         ("damage_class", PyVal.dict [("name", PyVal.str "physical")]),
         ("effect_entries", PyVal.list [])]
      = Except.error e) ∧
    Ability.init
      [("name", PyVal.str "stench"), ("id", PyVal.int 1),
       ("generation", PyVal.dict [("name", PyVal.str "generation-iii")]),
       ("effect_entries", PyVal.list
         [PyVal.dict [("effect", PyVal.str "e0"), ("short_effect", PyVal.str "s0")],
          PyVal.dict [("effect", PyVal.str "e1"), ("short_effect", PyVal.str "s1")]]),
       ("pokemon", PyVal.list [])]
    = Except.ok { name := PyVal.str "stench", id := PyVal.int 1,
                  generation := PyVal.str "generation-iii",
                  effect := PyVal.str "e1", short_effect := PyVal.str "s1",
                  pokemon := PyVal.list [] } ∧
    Move.init
      [("name", PyVal.str "pound"), ("id", PyVal.int 1),
       ("generation", PyVal.dict [("name", PyVal.str "generation-i")]),
       ("accuracy", PyVal.int 100), ("pp", PyVal.int 35), ("power", PyVal.int 40),
       ("type", PyVal.dict [("name", PyVal.str "normal")]),
       ("damage_class", PyVal.dict [("name", PyVal.str "physical")]),
       ("effect_entries", PyVal.list
         [PyVal.dict [("short_effect", PyVal.str "s0")]])]
    = Except.ok { name := PyVal.str "pound", id := PyVal.int 1,
                  generation := PyVal.str "generation-i",
                  accuracy := PyVal.int 100, pp := PyVal.int 35,
                  power := PyVal.int 40, type := PyVal.str "normal",
                  damage_class := PyVal.str "physical",
                  short_effect := PyVal.str "s0" } := by
  refine ⟨?_, ?_, ?_, ?_⟩
  · exact (effect_entries_index_policy (PyVal.str "stench") (PyVal.int 1)
      (PyVal.str "generation-iii") (PyVal.list []) PyVal.pynone PyVal.pynone
      PyVal.pynone PyVal.pynone PyVal.pynone []).1 (by decide)
  · exact (effect_entries_index_policy (PyVal.str "pound") (PyVal.int 1)
      (PyVal.str "generation-i") PyVal.pynone (PyVal.int 100) (PyVal.int 35)
      (PyVal.int 40) (PyVal.str "normal") (PyVal.str "physical") []).2.1 rfl
  · exact (effect_entries_index_policy (PyVal.str "stench") (PyVal.int 1)
      (PyVal.str "generation-iii") (PyVal.list []) PyVal.pynone PyVal.pynone
      PyVal.pynone PyVal.pynone PyVal.pynone
      [PyVal.dict [("effect", PyVal.str "e0"), ("short_effect", PyVal.str "s0")],
       PyVal.dict [("effect", PyVal.str "e1"), ("short_effect", PyVal.str "s1")]]).2.2.1
      [("effect", PyVal.str "e1"), ("short_effect", PyVal.str "s1")]
      (PyVal.str "e1") (PyVal.str "s1") rfl rfl rfl
  · exact (effect_entries_index_policy (PyVal.str "pound") (PyVal.int 1)
      (PyVal.str "generation-i") PyVal.pynone (PyVal.int 100) (PyVal.int 35)
      (PyVal.int 40) (PyVal.str "normal") (PyVal.str "physical")
      [PyVal.dict [("short_effect", PyVal.str "s0")]]).2.2.2
      [("short_effect", PyVal.str "s0")] (PyVal.str "s0") rfl rfl

theorem refListOf_ok {pl : PokeList} {xs : List PyVal}
    (h : refListOf pl = Except.ok xs) : pl = PokeList.raw (PyVal.list xs) := by
  cases pl with
  | raw v =>
    cases v with
    | list ys =>
      simp only [refListOf] at h
      cases h
      rfl
    | pynone => simp [refListOf] at h
    | str s => simp [refListOf] at h
    | int n => simp [refListOf] at h
    | bool b => simp [refListOf] at h
    | dict kvs => simp [refListOf] at h
  | stats xs2 => simp [refListOf] at h
  | moves xs2 => simp [refListOf] at h
  | abilities xs2 => simp [refListOf] at h

theorem mapExcept_ok_length {α β : Type} (f : α → Except String β) (l : List α)
    (bs : List β) (h : mapExcept f l = Except.ok bs) : bs.length = l.length := by
  induction l generalizing bs with
  | nil =>
    simp only [mapExcept] at h
    cases h
    rfl
  | cons a as ih =>
    simp only [mapExcept] at h
    cases hfa : f a with
    | error e => rw [hfa] at h; cases h
    | ok b =>
      rw [hfa] at h
      cases hrest : mapExcept f as with
      | error e => rw [hrest] at h; cases h
      | ok bs2 =>
        rw [hrest] at h
        cases h
        simp [ih bs2 hrest]

theorem mapExcept_ok_getElem {α β : Type} (f : α → Except String β) (l : List α)
    (bs : List β) (h : mapExcept f l = Except.ok bs) (i : Nat)
    (hi : i < l.length) (hb : i < bs.length) : f l[i] = Except.ok bs[i] := by
  induction l generalizing bs i with
  | nil => exact absurd hi (Nat.not_lt_zero i)
  | cons a as ih =>
    simp only [mapExcept] at h
    cases hfa : f a with
    | error e => rw [hfa] at h; cases h
    | ok b =>
      rw [hfa] at h
      cases hrest : mapExcept f as with
      | error e => rw [hrest] at h; cases h
      | ok bs2 =>
        rw [hrest] at h
        cases h
        cases i with
        | zero => simpa using hfa
        | succ n =>
          exact ih bs2 hrest n (Nat.lt_of_succ_lt_succ hi) (Nat.lt_of_succ_lt_succ hb)

theorem collectOk_length {α : Type} (slots : List (Option (Except String α)))
    (vs : List α) (h : collectOk slots = some vs) : vs.length = slots.length := by
  induction slots generalizing vs with
  | nil =>
    simp only [collectOk] at h
    cases h
    rfl
  | cons s rest ih =>
    match s with
    | Option.none => simp [collectOk] at h
    | some (Except.error e) => simp [collectOk] at h
    | some (Except.ok v) =>
      simp only [collectOk] at h
      cases hrest : collectOk rest with
      | none => rw [hrest] at h; cases h
      | some vs2 =>
        rw [hrest] at h
        cases h
        simp [ih vs2 hrest]

theorem gather_ok_length {α : Type} (tasks : List (Except String α)) (ord : List Nat)
    (vs : List α) (h : gather tasks ord = Except.ok vs) : vs.length = tasks.length := by
  simp only [gather] at h
  cases hfe : firstError tasks ord with
  | some e => rw [hfe] at h; cases h
  | none =>
    rw [hfe] at h
    cases hco : collectOk (fanIn tasks.length (completeTasks tasks ord)) with
    | none => rw [hco] at h; cases h
    | some res =>
      rw [hco] at h
      cases h
      have hx := collectOk_length _ _ hco
      simpa [fanIn] using hx

/-- Common shape of the three fan-out helpers: success implies the field
still held the raw reference list and the responses are in one-to-one
correspondence with it. -/
theorem fanout_ok_shape (net : Net) (ord : List Nat) (pl : PokeList) (key : String)
    (resps : List (Option PyVal))
    (h : (do
      let refs ← refListOf pl
      let urls ← mapExcept (refUrl key) refs
      gather (urls.map (JsonHelper.get_pokedex_object_data net)) ord)
      = Except.ok resps) :
    ∃ refs, pl = PokeList.raw (PyVal.list refs) ∧ resps.length = refs.length := by
  simp only [Bind.bind, Except.bind] at h
  cases hr : refListOf pl with
  | error e => simp [hr] at h
  | ok refs =>
    simp only [hr] at h
    cases hu : mapExcept (refUrl key) refs with
    | error e => simp [hu] at h
    | ok urls =>
      simp only [hu] at h
      have h1 := gather_ok_length _ ord resps h
      have h2 := mapExcept_ok_length _ refs urls hu
      refine ⟨refs, refListOf_ok hr, ?_⟩
      simp only [List.length_map] at h1
      omega

/-- Common failure shape of the three fan-out helpers: if the resolution of
one scheduled reference raises (either at URL extraction or at fetch), the
whole fan-out raises. -/
theorem fanout_error_of_bad_ref (net : Net) (ord : List Nat) (key : String)
    (refs : List PyVal) (i : Nat) (hi : i < refs.length) (e : String)
    (herr : (do
        let u ← refUrl key refs[i]
        JsonHelper.get_pokedex_object_data net u) = Except.error e)
    (hmem : i ∈ ord) :
    ∃ d, (do
      let refs2 ← refListOf (PokeList.raw (PyVal.list refs))
      let urls ← mapExcept (refUrl key) refs2
      gather (urls.map (JsonHelper.get_pokedex_object_data net)) ord)
      = Except.error d := by
  simp only [Bind.bind, Except.bind] at herr
  cases hu : mapExcept (refUrl key) refs with
  | error d =>
    exact ⟨d, by simp [refListOf, Bind.bind, Except.bind, hu]⟩
  | ok urls =>
    have hlen : urls.length = refs.length := mapExcept_ok_length _ _ _ hu
    have hi2 : i < urls.length := by omega
    have hpt := mapExcept_ok_getElem _ _ _ hu i hi hi2
    rw [hpt] at herr
    have hi3 : i < (urls.map (JsonHelper.get_pokedex_object_data net)).length := by
      simpa using hi2
    have htask : (urls.map (JsonHelper.get_pokedex_object_data net))[i]
        = Except.error e := by
      simpa using herr
    obtain ⟨d, hd⟩ := gather_error (urls.map (JsonHelper.get_pokedex_object_data net))
      ord i hi3 e htask hmem
    exact ⟨d, by simp [refListOf, Bind.bind, Except.bind, hu, hd]⟩

/-- Claim C7: expansion preserves the length of each of the stats, moves and
abilities lists: whenever expand_attributes returns a Creature, its three
lists hold exactly as many entries as the raw reference lists held before,
with the element type changed from raw reference to materialized
sub-record. -/
theorem expand_attributes_preserves_lengths (net : Net) (ordS ordM ordA : List Nat)
    (p p2 : Pokemon)
    (h : JsonHelper.expand_attributes net ordS ordM ordA p = Except.ok p2) :
    ∃ srefs mrefs arefs sl ml al,
      p.stats = PokeList.raw (PyVal.list srefs) ∧
      p.moves = PokeList.raw (PyVal.list mrefs) ∧
      p.abilities = PokeList.raw (PyVal.list arefs) ∧
      p2.stats = PokeList.stats sl ∧ sl.length = srefs.length ∧
      p2.moves = PokeList.moves ml ∧ ml.length = mrefs.length ∧
      p2.abilities = PokeList.abilities al ∧ al.length = arefs.length := by
  simp only [JsonHelper.expand_attributes, Bind.bind, Except.bind] at h
  cases h1 : JsonHelper.get_stats net ordS p with
  | error e => simp [h1] at h
  | ok stats =>
    simp only [h1] at h
    cases h2 : buildStats stats with
    | error e => simp [h2] at h
    | ok statObjs =>
      simp only [h2] at h
      cases h3 : JsonHelper.get_moves net ordM
          { p with stats := PokeList.stats statObjs } with
      | error e => simp [h3] at h
      | ok moves =>
        simp only [h3] at h
        cases h4 : buildMoves moves with
        | error e => simp [h4] at h
        | ok moveObjs =>
          simp only [h4] at h
          cases h5 : JsonHelper.get_abilities net ordA
              { p with stats := PokeList.stats statObjs,
                       moves := PokeList.moves moveObjs } with
          | error e => simp [h5] at h
          | ok abilities =>
            simp only [h5] at h
            cases h6 : buildAbilities abilities with
            | error e => simp [h6] at h
            | ok abilityObjs =>
              simp only [h6] at h
              cases h
              obtain ⟨srefs, hs, hslen⟩ := fanout_ok_shape net ordS p.stats "stat" stats h1
              obtain ⟨mrefs, hm, hmlen⟩ := fanout_ok_shape net ordM p.moves "move" moves h3
              obtain ⟨arefs, ha, halen⟩ :=
                fanout_ok_shape net ordA p.abilities "ability" abilities h5
              have hsl := mapExcept_ok_length _ _ _ h2
              have hml := mapExcept_ok_length _ _ _ h4
              have hal := mapExcept_ok_length _ _ _ h6
              exact ⟨srefs, mrefs, arefs, statObjs, moveObjs, abilityObjs,
                hs, hm, ha, rfl, by omega, rfl, by omega, rfl, by omega⟩

/-- Claim C6: during expansion of a Creature, a reference whose resolution
fails is downgraded to a sentinel marker in its list position and the
expansion as a whole never fails because of one bad reference. REFUTED at a
concrete input: a Creature with two stat references of which only the
second fails at the transport layer; expand_attributes raises that
exception for the whole expansion, produces no sentinel and no Creature. -/
theorem expand_attributes_no_sentinel_cex :
    JsonHelper.expand_attributes netStatFail [0, 1] [] [] pokeTwoStats
      = Except.error "boom" := by
  rfl

/-- Claim C6, amended: a failing reference resolution makes the whole
expansion fail: whenever the resolution of one scheduled stat reference
raises (at URL extraction or at fetch), expand_attributes propagates an
exception and returns no Creature at all; no sentinel value exists in the
code (a NotFound or malformed payload likewise raises, at sub-record
construction). -/
theorem expand_single_ref_failure_fails_whole (net : Net) (ordS ordM ordA : List Nat)
    (p : Pokemon) (refs : List PyVal) (i : Nat) (hi : i < refs.length) (e : String)
    (hstats : p.stats = PokeList.raw (PyVal.list refs))
    (hmem : i ∈ ordS)
    (herr : (do
        let u ← refUrl "stat" refs[i]
        JsonHelper.get_pokedex_object_data net u) = Except.error e) :
    ∃ d, JsonHelper.expand_attributes net ordS ordM ordA p = Except.error d := by
  obtain ⟨d, hd⟩ := fanout_error_of_bad_ref net ordS "stat" refs i hi e herr hmem
  have hgs : JsonHelper.get_stats net ordS p = Except.error d := by
    simpa [JsonHelper.get_stats, hstats, Bind.bind, Except.bind] using hd
  refine ⟨d, ?_⟩
  simp [JsonHelper.expand_attributes, Bind.bind, Except.bind, hgs]

/-- Witness for the amended C6 at the concrete two-stat Creature. -/
theorem expand_single_ref_failure_fails_whole_witness :
    ∃ d, JsonHelper.expand_attributes netStatFail [0, 1] [] [] pokeTwoStats
      = Except.error d :=
  expand_single_ref_failure_fails_whole netStatFail [0, 1] [] [] pokeTwoStats
    [PyVal.dict [("stat", PyVal.dict [("url", PyVal.str "su1")])],
     PyVal.dict [("stat", PyVal.dict [("url", PyVal.str "su2")])]]
    1 (by decide) "boom" rfl (by decide) rfl

/-- Witness for C7: a successful expansion of a Creature with one stat, one
move and one ability reference preserves all three list lengths. -/
theorem expand_attributes_preserves_lengths_witness :
    ∃ srefs mrefs arefs sl ml al,
      pokeOneEach.stats = PokeList.raw (PyVal.list srefs) ∧
      pokeOneEach.moves = PokeList.raw (PyVal.list mrefs) ∧
      pokeOneEach.abilities = PokeList.raw (PyVal.list arefs) ∧
      pokeOneEachExpanded.stats = PokeList.stats sl ∧ sl.length = srefs.length ∧
      pokeOneEachExpanded.moves = PokeList.moves ml ∧ ml.length = mrefs.length ∧
      pokeOneEachExpanded.abilities = PokeList.abilities al ∧
      al.length = arefs.length :=
  expand_attributes_preserves_lengths netExpandOk [0] [0] [0]
    pokeOneEach pokeOneEachExpanded (by rfl)

theorem dropWhile_idem {α : Type} (p : α → Bool) (l : List α) :
    (l.dropWhile p).dropWhile p = l.dropWhile p := by
  induction l with
  | nil => rfl
  | cons a as ih =>
    by_cases hpa : p a
    · simp [List.dropWhile_cons, hpa, ih]
    · simp [List.dropWhile_cons, hpa]

theorem dropWhile_of_stripRight {α : Type} (p : α → Bool) (l : List α)
    (hl : l.dropWhile p = l) :
    ((l.reverse.dropWhile p).reverse).dropWhile p
      = (l.reverse.dropWhile p).reverse := by
  cases l with
  | nil => rfl
  | cons a t =>
    have hpa : ¬ p a = true := by
      intro hp
      rw [List.dropWhile_cons, if_pos hp] at hl
      have hle := (List.dropWhile_sublist (l := t) p).length_le
      have hlen := congrArg List.length hl
      simp at hlen
      omega
    rw [List.reverse_cons, List.dropWhile_append]
    by_cases he : (t.reverse.dropWhile p).isEmpty
    · simp [he, List.dropWhile_cons, hpa]
    · simp only [he, Bool.false_eq_true, if_false, List.reverse_append,
        List.reverse_cons, List.reverse_nil, List.nil_append,
        List.singleton_append, List.dropWhile_cons]
      simp [hpa]

theorem pyStrip_no_ends (s : String) :
    (pyStrip s).data.dropWhile pySpace = (pyStrip s).data ∧
    (pyStrip s).data.reverse.dropWhile pySpace = (pyStrip s).data.reverse := by
  have hAid : (s.data.dropWhile pySpace).dropWhile pySpace
      = s.data.dropWhile pySpace := dropWhile_idem pySpace s.data
  constructor
  · simpa [pyStrip] using
      dropWhile_of_stripRight pySpace (s.data.dropWhile pySpace) hAid
  · have hrev : (pyStrip s).data.reverse
        = (s.data.dropWhile pySpace).reverse.dropWhile pySpace :=
      List.reverse_reverse _
    rw [hrev, dropWhile_idem]

/-- Claim C9: normalization splits the literal input string on whitespace
(or takes the file lines), trims every entry, and the resulting sequence
contains only non-empty identifier strings. REFUTED at concrete inputs:
the source splits on the single space character, so the literal input
"1  2" yields the entry list ["1", "", "2"] containing an empty string,
and the tab-separated input "1\t2" stays one entry instead of being split
on whitespace. -/
theorem input_handler_empty_entry_cex :
    InputHandler.handle_request (fun _ => []) reqDoubleSpace = ["1", "", "2"] ∧
    "" ∈ InputHandler.handle_request (fun _ => []) reqDoubleSpace ∧
    InputHandler.handle_request (fun _ => []) reqTabbed = ["1\t2"] := by
  refine ⟨by rfl, ?_, by rfl⟩
  decide

/-- Claim C9, amended: normalization materializes the items by splitting the
literal input string on the single space character (or taking the input
file lines) and stripping every entry of leading and trailing whitespace;
every resulting entry is fully stripped, but entries can be empty (for
consecutive spaces or blank file lines) and tabs and newlines inside a
literal input do not split. -/
theorem input_handler_split_and_strip (fs : String → List String) (req : Request) :
    (req.input_file = Option.none →
      InputHandler.handle_request fs req
        = (pySplit ' ' req.input_data).map pyStrip) ∧
    (∀ f, req.input_file = some f →
      InputHandler.handle_request fs req = (fs f).map pyStrip) ∧
    (∀ e, e ∈ InputHandler.handle_request fs req →
      e.data.dropWhile pySpace = e.data ∧
      e.data.reverse.dropWhile pySpace = e.data.reverse) := by
  refine ⟨?_, ?_, ?_⟩
  · intro h
    simp [InputHandler.handle_request, h]
  · intro f h
    simp [InputHandler.handle_request, h]
  · intro e he
    have hex : ∃ x, e = pyStrip x := by
      cases hf : req.input_file with
      | none =>
        rw [InputHandler.handle_request, hf] at he
        obtain ⟨x, _, hx⟩ := List.mem_map.1 he
        exact ⟨x, hx.symm⟩
      | some f =>
        rw [InputHandler.handle_request, hf] at he
        obtain ⟨x, _, hx⟩ := List.mem_map.1 he
        exact ⟨x, hx.symm⟩
    obtain ⟨x, rfl⟩ := hex
    exact pyStrip_no_ends x

/-- Witness for the amended C9 at the concrete double-space request. -/
theorem input_handler_split_and_strip_witness :
    InputHandler.handle_request (fun _ => []) reqDoubleSpace
      = (pySplit ' ' "1  2").map pyStrip ∧
    ("1".data.dropWhile pySpace = "1".data ∧
     "1".data.reverse.dropWhile pySpace = "1".data.reverse) :=
  ⟨(input_handler_split_and_strip (fun _ => []) reqDoubleSpace).1 rfl,
   (input_handler_split_and_strip (fun _ => []) reqDoubleSpace).2.2 "1" (by decide)⟩

/-- Claim C4: after the fetch stage of the wired pipeline completes, the
results sequence matches the items sequence in length and order, each
position holding a record or a typed failure marker, never an unhandled
exception. The code is broken here: QueryHandler.handle_request calls
pokeretreiver.query.process_request, but the module binds no top-level
name process_request (the coroutine lives on the JsonHelper class), so
the fetch stage raises AttributeError on every request and never
populates results; moreover the stage builds objects with
create_object(**info) with no per-item failure marker, so a 404 (empty
dict) would raise TypeError rather than mark the item. -/
theorem query_handler_attribute_error (net : Net) (order : List Nat)
    (mode : PokedexMode) (expanded : Bool) (ids : List String) :
    QueryHandler.handle_request net order mode expanded ids
      = Except.error attributeErrorMsg := by
  rfl

/-- Claim C5: for every request with expanded=true and mode pokemon, the
fetch stage of the wired pipeline invokes the expansion engine on every
successfully materialized Creature. The code is broken here:
QueryHandler.handle_request never consults request.expanded and never
calls JsonHelper.expand_attributes (that logic lives only in
QueryMaster.execute_request, which the pipeline never invokes), and it
raises AttributeError on every request anyway, so no Creature is ever
expanded by the pipeline. -/
theorem query_handler_expanded_never_expands (net : Net) (order : List Nat)
    (mode : PokedexMode) (expanded : Bool) (ids : List String)
    (hexp : expanded = true) (hmode : mode = PokedexMode.POKEMON) :
    QueryHandler.handle_request net order mode expanded ids
      = Except.error attributeErrorMsg := by
  rfl

/-- Witness for C5 at a concrete expanded Creature request. -/
theorem query_handler_expanded_never_expands_witness :
    QueryHandler.handle_request net200 [0] PokedexMode.POKEMON true ["25"]
      = Except.error attributeErrorMsg :=
  query_handler_expanded_never_expands net200 [0] PokedexMode.POKEMON true ["25"]
    rfl rfl

/-- Claim C10: for every request that reaches the render stage,
OutputHandler opens the file named by the output field for writing and
writes one rendered record per result, even when the output target is the
console marker "print": a console-targeted run also creates or overwrites
a file literally named "print", in addition to printing to the console. -/
theorem output_handler_writes_print_file (output : String) (results : List String) :
    (OutputHandler.handle_request output results).1.written
      = [(output, String.join (results.map (fun r => r ++ "\n")))] ∧
    (OutputHandler.handle_request "print" results).1.written
      = [("print", String.join (results.map (fun r => r ++ "\n")))] ∧
    (OutputHandler.handle_request "print" results).1.printed = "" :: results := by
  refine ⟨rfl, rfl, ?_⟩
  simp [OutputHandler.handle_request]
